import Mathlib

/-!
Verification of the personal-finance-tracker backend (src/app.py).

The development shallowly embeds the two pieces of the backend that carry
decision logic: the keyword categorizer `categorize_transaction` and the
endpoint handlers (`create_link_token` is pure remote glue and is not needed
by any claim; `set_access_token` and `sync_transactions` are modelled as pure
state transformers over an explicit relational store `DB`).

The remote Plaid API is opaque to the program; it is modelled as function
parameters (`exchange` for the public-token exchange, `tsync` for the
transactions-sync delta).  Durability follows SQLite semantics as used by the
source: statements executed on a connection become durable only at
`conn.commit()`; an exception path that skips the commit leaves the committed
state unchanged.
-/

set_option maxRecDepth 4000

namespace FinanceTracker

/-! ## Categorizer (src/app.py, categorize_transaction) -/

/-- Substring search on character lists: does `kw` occur contiguously in `s`? -/
def subAux (kw : List Char) : List Char → Bool
  | [] => kw.isEmpty
  | c :: rest => kw.isPrefixOf (c :: rest) || subAux kw rest

/-- Python `kw in s` on strings: `kw` occurs as a contiguous substring of `s`. -/
def strContains (s kw : String) : Bool :=
  subAux kw.data s.data

/-- Python `s.lower()` (on the ASCII fragment), implemented directly on the
character list so that the kernel can evaluate it. -/
def lowerString (s : String) : String :=
  ⟨s.data.map Char.toLower⟩

/-- The `KEYWORD_MAP` dict of `categorize_transaction`, in Python's insertion
(declaration) order. -/
def KEYWORD_MAP : List (String × List String) :=
  [("Food", ["restaurant", "cafe", "groceries", "starbucks", "mcdonalds"]),
   ("Transport", ["uber", "lyft", "gas", "metro"]),
   ("Shopping", ["amazon", "target", "walmart", "store"]),
   ("Utilities", ["electric", "comcast", "verizon", "water"]),
   ("Entertainment", ["movies", "concert", "netflix", "spotify"]),
   ("Housing", ["rent", "mortgage"])]

/-- The loop-body condition of `categorize_transaction`:
`any(keyword in description.lower() for keyword in keywords)`. -/
def catMatches (description : String) (entry : String × List String) : Bool :=
  entry.2.any fun kw => strContains (lowerString description) kw

/-- The `for category, keywords in KEYWORD_MAP.items()` loop: return the first
category whose keyword set matches, else fall through. -/
def categorizeAux (description : String) : List (String × List String) → String
  | [] => "Uncategorized"
  | e :: rest => if catMatches description e then e.1 else categorizeAux description rest

/-- `categorize_transaction` from src/app.py. -/
def categorize_transaction (description : String) : String :=
  categorizeAux description KEYWORD_MAP

/-! ## Relational store and endpoint model (src/app.py) -/

/-- A row of the `plaid_items` table (the spec's LinkedAccount). -/
structure PlaidItem where
  user_id : String
  access_token : String
  item_id : String
deriving DecidableEq

/-- A row of the `categories` table. -/
structure Category where
  id : Nat
  name : String
deriving DecidableEq

/-- A row of the `transactions` table, as written by `sync_transactions`
(the generated `id` column is not modelled; rows are kept in insertion order). -/
structure TransactionRow where
  user_id : String
  transaction_date : String
  description : String
  amount : Rat
  category_id : Nat
deriving DecidableEq

/-- The relational store. -/
structure DB where
  plaid_items : List PlaidItem
  categories : List Category
  transactions : List TransactionRow
deriving DecidableEq

/-- One transaction of the remote sync delta (only the fields the code reads). -/
structure RemoteTxn where
  date : String
  name : String
  amount : Rat
deriving DecidableEq

/-- The remote `transactions_sync` response: `added` / `modified` / `removed`. -/
structure SyncDelta where
  added : List RemoteTxn
  modified : List RemoteTxn
  removed : List RemoteTxn
deriving DecidableEq

/-- The JSON/status payload an endpoint returns. -/
structure ApiResponse where
  status_code : Nat
  status : String
  error : Option String
  new_transactions : Option Nat
deriving DecidableEq

/-- The observable outcome of one endpoint invocation: the HTTP response, the
committed database afterwards, and how many remote Plaid API calls were made. -/
structure EndpointResult where
  response : ApiResponse
  db : DB
  remote_calls : Nat
deriving DecidableEq

/-- Python truthiness of `data.get(field)`: `None` and the empty string are
falsy, every other string is truthy. -/
def pyTruthy (o : Option String) : Bool :=
  match o with
  | none => false
  | some s => !s.isEmpty

/-- Modelled from the spec: the schema (`CREATE TABLE` statements for
`finance_tracker.db`) is not under src/; per spec §3 LinkedAccount rows are
keyed uniquely by `user_id`, so SQLite `INSERT OR REPLACE INTO plaid_items`
removes any existing row with the same `user_id` and inserts the new row. -/
def upsertPlaidItem (items : List PlaidItem) (row : PlaidItem) : List PlaidItem :=
  (items.filter fun r => r.user_id != row.user_id) ++ [row]

/-- The dict comprehension `{row['name']: row['id'] for row in categories}`
followed by a keyed lookup: the last row with a given name wins. -/
def categoryMapGet (cats : List Category) (name : String) : Option Nat :=
  (cats.reverse.find? fun c => c.name == name).map Category.id

/-- `set_access_token` from src/app.py, as a pure state transformer.  The
remote exchange `public_token -> (access_token, item_id)` is the opaque
parameter `exchange`. -/
def set_access_token (exchange : String → String × String) (db : DB)
    (public_token user_id : Option String) : EndpointResult :=
  if !(pyTruthy public_token) || !(pyTruthy user_id) then
    { response := { status_code := 400, status := "error",
                    error := some "Missing public_token or user_id",
                    new_transactions := none },
      db := db, remote_calls := 0 }
  else
    let tok := exchange (public_token.getD "")
    let row : PlaidItem :=
      { user_id := user_id.getD "", access_token := tok.1, item_id := tok.2 }
    { response := { status_code := 200, status := "success", error := none,
                    new_transactions := none },
      db := { db with plaid_items := upsertPlaidItem db.plaid_items row },
      remote_calls := 1 }

/-- The row built by one iteration of the sync loop: the remote transaction's
date, description and amount verbatim, with the category id resolved through
the category map and defaulted to the sentinel id `uncatId`. -/
def mkRow (uid : String) (cats : List Category) (uncatId : Nat) (t : RemoteTxn) :
    TransactionRow :=
  { user_id := uid, transaction_date := t.date, description := t.name,
    amount := t.amount,
    category_id := (categoryMapGet cats (categorize_transaction t.name)).getD uncatId }

/-- The insert loop of `sync_transactions`.  Returns `none` when an exception
escapes the loop: either the `KeyError` from `category_map['Uncategorized']`
(the eagerly evaluated `.get` default) or an injected persistence failure of
the `idx`-th INSERT (`failAt = some idx`).  On success it returns the pending
rows in insertion order. -/
def syncLoop (uid : String) (cats : List Category) :
    List RemoteTxn → Nat → Option Nat → Option (List TransactionRow)
  | [], _, _ => some []
  | t :: rest, idx, failAt =>
    match categoryMapGet cats "Uncategorized" with
    | none => none
    | some uncatId =>
      if failAt = some idx then none
      else
        (syncLoop uid cats rest (idx + 1) failAt).map
          (fun rows => mkRow uid cats uncatId t :: rows)

/-- `sync_transactions` from src/app.py, as a pure state transformer.  The
remote `transactions_sync` call is the opaque parameter `tsync`; `failAt`
injects a persistence failure at one INSERT (`none` = no failure).  Pending
inserts become durable only at the single `conn.commit()` after the loop, so
every error path leaves the committed store unchanged. -/
def sync_transactions (tsync : String → SyncDelta) (db : DB)
    (user_id : Option String) (failAt : Option Nat) : EndpointResult :=
  match db.plaid_items.find? (fun r => user_id == some r.user_id) with
  | none =>
    { response := { status_code := 404, status := "error",
                    error := some "No linked account found for this user.",
                    new_transactions := none },
      db := db, remote_calls := 0 }
  | some item =>
    let delta := tsync item.access_token
    match syncLoop (user_id.getD "") db.categories delta.added 0 failAt with
    | none =>
      { response := { status_code := 500, status := "error",
                      error := some "exception", new_transactions := none },
        db := db, remote_calls := 1 }
    | some rows =>
      { response := { status_code := 200, status := "success", error := none,
                      new_transactions := some rows.length },
        db := { db with transactions := db.transactions ++ rows },
        remote_calls := 1 }

/-! ## Concrete fixtures used by the witnesses -/

/-- A concrete remote exchange function. -/
def exchangeEx : String → String × String :=
  fun s => (s ++ "-tok", s ++ "-itm")

/-- A concrete linked account. -/
def itemEx : PlaidItem :=
  { user_id := "u", access_token := "tok", item_id := "itm" }

/-- A concrete category table (ids out of name order, with the sentinel). -/
def catsEx : List Category :=
  [{ id := 3, name := "Food" }, { id := 5, name := "Transport" },
   { id := 0, name := "Uncategorized" }]

/-- A concrete remote transaction. -/
def txnEx : RemoteTxn :=
  { date := "2024-01-01", name := "Starbucks Coffee", amount := (5 : Rat) }

/-- A concrete store with one linked account and no transactions. -/
def dbEx : DB :=
  { plaid_items := [itemEx], categories := catsEx, transactions := [] }

/-- A concrete remote sync delta with one added transaction. -/
def tsyncEx : String → SyncDelta :=
  fun _ => { added := [txnEx], modified := [], removed := [] }

/-! ## Sanity checks -/

example : categorize_transaction "Starbucks Coffee" = "Food" := by decide
example : categorize_transaction "" = "Uncategorized" := by decide
example : categorize_transaction "uber cafe" = "Food" := by decide
example : categorize_transaction "zzz" = "Uncategorized" := by decide

/-! ## Categorizer lemmas -/

/-- `subAux` decides the mathematical substring (infix) relation. -/
theorem subAux_eq_infix (kw : List Char) : ∀ s : List Char, subAux kw s = true ↔ kw <:+: s := by
  intro s
  induction s with
  | nil => simp [subAux, List.infix_nil, List.isEmpty_iff]
  | cons c rest ih =>
    simp [subAux, List.infix_cons_iff, ih]

/-- `strContains s kw` decides whether `kw` occurs as a substring of `s`. -/
theorem strContains_iff (s kw : String) : strContains s kw = true ↔ kw.data <:+: s.data :=
  subAux_eq_infix kw.data s.data

/-- First-match behaviour of the categorizer loop over an arbitrary keyword
table: either no entry matches and the fallback is returned, or the result is
the name of the first matching entry. -/
theorem categorizeAux_first (d : String) (l : List (String × List String)) :
    ((∀ e ∈ l, catMatches d e = false) ∧ categorizeAux d l = "Uncategorized") ∨
    (∃ i : Fin l.length, catMatches d (l.get i) = true ∧
      (∀ j : Fin l.length, j.val < i.val → catMatches d (l.get j) = false) ∧
      categorizeAux d l = (l.get i).1) := by
  induction l with
  | nil => exact Or.inl ⟨by simp, rfl⟩
  | cons e rest ih =>
    by_cases h : catMatches d e
    · refine Or.inr ⟨⟨0, by simp⟩, by simpa using h, ?_, by simp [categorizeAux, h]⟩
      intro j hj
      simp at hj
    · rcases ih with ⟨hall, hres⟩ | ⟨i, hi, hfirst, hres⟩
      · refine Or.inl ⟨?_, by simp [categorizeAux, h, hres]⟩
        intro x hx
        rcases List.mem_cons.mp hx with rfl | hx
        · exact Bool.eq_false_iff.mpr h
        · exact hall x hx
      · refine Or.inr ⟨⟨i.val + 1, by simp [Nat.succ_lt_succ i.isLt]⟩, ?_, ?_, ?_⟩
        · simpa using hi
        · intro j hj
          rcases j with ⟨jv, hjv⟩
          cases jv with
          | zero => simpa using Bool.eq_false_iff.mpr h
          | succ k =>
            have hk : k < i.val := by simpa using hj
            simpa using hfirst ⟨k, by simpa using hjv⟩ hk
        · simpa [categorizeAux, h] using hres

/-! ## Claims about the categorizer -/

/-- C1: for every description, `categorize_transaction` returns the first
category — iterating in the fixed declaration order Food, Transport, Shopping,
Utilities, Entertainment, Housing — for which at least one keyword is a
substring of the lowercased description; when several categories match, the
first-declared one wins, and when none matches the result is "Uncategorized". -/
theorem claim_C1_categorize_first_declared (d : String) :
    KEYWORD_MAP.map Prod.fst =
      ["Food", "Transport", "Shopping", "Utilities", "Entertainment", "Housing"] ∧
    (((∀ e ∈ KEYWORD_MAP, catMatches d e = false) ∧
        categorize_transaction d = "Uncategorized") ∨
      (∃ i : Fin KEYWORD_MAP.length, catMatches d (KEYWORD_MAP.get i) = true ∧
        (∀ j : Fin KEYWORD_MAP.length, j.val < i.val →
          catMatches d (KEYWORD_MAP.get j) = false) ∧
        categorize_transaction d = (KEYWORD_MAP.get i).1)) :=
  ⟨by decide, categorizeAux_first d KEYWORD_MAP⟩

/-- Witness for C1 at the concrete description "starbucks uber". -/
theorem claim_C1_categorize_first_declared_witness :
    KEYWORD_MAP.map Prod.fst =
      ["Food", "Transport", "Shopping", "Utilities", "Entertainment", "Housing"] ∧
    (((∀ e ∈ KEYWORD_MAP, catMatches "starbucks uber" e = false) ∧
        categorize_transaction "starbucks uber" = "Uncategorized") ∨
      (∃ i : Fin KEYWORD_MAP.length, catMatches "starbucks uber" (KEYWORD_MAP.get i) = true ∧
        (∀ j : Fin KEYWORD_MAP.length, j.val < i.val →
          catMatches "starbucks uber" (KEYWORD_MAP.get j) = false) ∧
        categorize_transaction "starbucks uber" = (KEYWORD_MAP.get i).1)) :=
  claim_C1_categorize_first_declared "starbucks uber"

/-- C7: `categorize_transaction` is a total pure function; it returns
"Uncategorized" on the empty description and on every description in which no
known keyword occurs as a substring of the lowercased text. -/
theorem claim_C7_total_uncategorized :
    categorize_transaction "" = "Uncategorized" ∧
    ∀ d : String,
      (∀ e ∈ KEYWORD_MAP, ∀ kw ∈ e.2, strContains (lowerString d) kw = false) →
      categorize_transaction d = "Uncategorized" := by
  refine ⟨by decide, ?_⟩
  intro d hd
  have hall : ∀ e ∈ KEYWORD_MAP, catMatches d e = false := by
    intro e he
    unfold catMatches
    simp only [List.any_eq_false]
    intro kw hkw
    simp [hd e he kw hkw]
  rcases categorizeAux_first d KEYWORD_MAP with ⟨_, hres⟩ | ⟨i, hi, _, _⟩
  · exact hres
  · rw [hall (KEYWORD_MAP.get i) (KEYWORD_MAP.get_mem i.val i.isLt)] at hi
    exact absurd hi (by simp)

/-- Witness for C7 at the concrete keyword-free description "zzzz 123". -/
theorem claim_C7_total_uncategorized_witness :
    categorize_transaction "zzzz 123" = "Uncategorized" :=
  claim_C7_total_uncategorized.2 "zzzz 123" (by decide)

/-! ## Upsert lemmas -/

theorem filter_filter_self {α : Type} (p : α → Bool) (l : List α) :
    (l.filter p).filter p = l.filter p := by
  induction l with
  | nil => rfl
  | cons a t ih =>
    by_cases h : p a
    · simp [List.filter_cons, h, ih]
    · simp [List.filter_cons, h, ih]

theorem filter_neq_then_eq (uid : String) (items : List PlaidItem) :
    ((items.filter fun r => r.user_id != uid).filter fun r => r.user_id == uid) = [] := by
  rw [List.filter_eq_nil_iff]
  intro a ha
  have h := (List.mem_filter.mp ha).2
  simp only [bne_iff_ne, ne_eq] at h
  simp [h]

/-- After an upsert, the rows keyed by the upserted `user_id` are exactly the
new row. -/
theorem filter_upsert_self (items : List PlaidItem) (row : PlaidItem) :
    ((upsertPlaidItem items row).filter fun r => r.user_id == row.user_id) = [row] := by
  unfold upsertPlaidItem
  rw [List.filter_append, filter_neq_then_eq]
  simp

/-- Two upserts with the same key collapse to the second upsert. -/
theorem upsert_twice (items : List PlaidItem) (r1 r2 : PlaidItem)
    (h : r1.user_id = r2.user_id) :
    upsertPlaidItem (upsertPlaidItem items r1) r2 = upsertPlaidItem items r2 := by
  unfold upsertPlaidItem
  rw [List.filter_append]
  have h1 : ((items.filter fun r => r.user_id != r1.user_id).filter
      fun r => r.user_id != r2.user_id) = items.filter fun r => r.user_id != r2.user_id := by
    rw [h, filter_filter_self]
  have h2 : ([r1].filter fun r => r.user_id != r2.user_id) = [] := by
    simp [List.filter_cons, h]
  rw [h1, h2, List.append_nil]

/-! ## Claims about set_access_token -/

/-- C3: when `public_token` or `user_id` is absent from the request,
`set_access_token` returns a 400 "missing field" error, makes no remote API
call, and leaves the store (in particular the LinkedAccount table) unchanged. -/
theorem claim_C3_missing_field_rejected (exchange : String → String × String)
    (db : DB) (public_token user_id : Option String)
    (h : public_token = none ∨ user_id = none) :
    (set_access_token exchange db public_token user_id).response.status_code = 400 ∧
    (set_access_token exchange db public_token user_id).response.status = "error" ∧
    (set_access_token exchange db public_token user_id).response.error =
      some "Missing public_token or user_id" ∧
    (set_access_token exchange db public_token user_id).remote_calls = 0 ∧
    (set_access_token exchange db public_token user_id).db = db := by
  rcases h with rfl | rfl
  · simp [set_access_token, pyTruthy]
  · simp [set_access_token, pyTruthy]

/-- Witness for C3: a request with no `public_token`. -/
theorem claim_C3_missing_field_rejected_witness :
    (set_access_token exchangeEx dbEx none (some "u")).response.status_code = 400 ∧
    (set_access_token exchangeEx dbEx none (some "u")).response.status = "error" ∧
    (set_access_token exchangeEx dbEx none (some "u")).response.error =
      some "Missing public_token or user_id" ∧
    (set_access_token exchangeEx dbEx none (some "u")).remote_calls = 0 ∧
    (set_access_token exchangeEx dbEx none (some "u")).db = dbEx :=
  claim_C3_missing_field_rejected exchangeEx dbEx none (some "u") (Or.inl rfl)

/-- On a well-formed request, `set_access_token` succeeds and upserts the
exchanged credentials keyed by `user_id`. -/
theorem set_access_token_success (exchange : String → String × String) (db : DB)
    (pt uid : String) (hpt : pt.isEmpty = false) (hu : uid.isEmpty = false) :
    set_access_token exchange db (some pt) (some uid) =
      { response := { status_code := 200, status := "success", error := none,
                      new_transactions := none },
        db := { db with plaid_items :=
          upsertPlaidItem db.plaid_items ⟨uid, (exchange pt).1, (exchange pt).2⟩ },
        remote_calls := 1 } := by
  simp [set_access_token, pyTruthy, hpt, hu]

/-- C5: the token-exchange write is an upsert keyed by `user_id` with
last-writer-wins semantics: after two calls with different tokens for the same
user, exactly one LinkedAccount row exists for that user, holding the second
call's access_token and item_id, and the state equals the state after the
second call alone. -/
theorem claim_C5_upsert_last_writer_wins (exchange : String → String × String)
    (db : DB) (pt1 pt2 uid : String) (_hne : pt1 ≠ pt2)
    (h1 : pt1.isEmpty = false) (h2 : pt2.isEmpty = false)
    (hu : uid.isEmpty = false) :
    ((set_access_token exchange
        (set_access_token exchange db (some pt1) (some uid)).db
        (some pt2) (some uid)).db.plaid_items.filter fun r => r.user_id == uid) =
      [{ user_id := uid, access_token := (exchange pt2).1, item_id := (exchange pt2).2 }] ∧
    (set_access_token exchange
        (set_access_token exchange db (some pt1) (some uid)).db
        (some pt2) (some uid)).db =
      (set_access_token exchange db (some pt2) (some uid)).db := by
  have e1 := set_access_token_success exchange db pt1 uid h1 hu
  have e2 := set_access_token_success exchange
      { db with plaid_items :=
          upsertPlaidItem db.plaid_items ⟨uid, (exchange pt1).1, (exchange pt1).2⟩ }
      pt2 uid h2 hu
  have e3 := set_access_token_success exchange db pt2 uid h2 hu
  simp only [e1]
  simp only [e2, e3]
  refine ⟨filter_upsert_self
    (upsertPlaidItem db.plaid_items ⟨uid, (exchange pt1).1, (exchange pt1).2⟩)
    ⟨uid, (exchange pt2).1, (exchange pt2).2⟩, ?_⟩
  simp only [DB.mk.injEq, and_true]
  exact upsert_twice db.plaid_items _ _ rfl

/-- Witness for C5 with two concrete exchanges for the user "u". -/
theorem claim_C5_upsert_last_writer_wins_witness :
    ((set_access_token exchangeEx
        (set_access_token exchangeEx dbEx (some "a") (some "u")).db
        (some "b") (some "u")).db.plaid_items.filter fun r => r.user_id == "u") =
      [{ user_id := "u", access_token := (exchangeEx "b").1, item_id := (exchangeEx "b").2 }] ∧
    (set_access_token exchangeEx
        (set_access_token exchangeEx dbEx (some "a") (some "u")).db
        (some "b") (some "u")).db =
      (set_access_token exchangeEx dbEx (some "b") (some "u")).db :=
  claim_C5_upsert_last_writer_wins exchangeEx dbEx "a" "b" "u"
    (by decide) (by decide) (by decide) (by decide)

/-! ## Sync lemmas -/

/-- With no injected failure and the sentinel category present, the insert
loop succeeds and produces one row per added transaction, in order, with the
category id resolved through the category map and defaulted to the sentinel. -/
theorem syncLoop_success (uid : String) (cats : List Category) (uncatId : Nat)
    (h : categoryMapGet cats "Uncategorized" = some uncatId) :
    ∀ (txns : List RemoteTxn) (idx : Nat),
      syncLoop uid cats txns idx none =
        some (txns.map fun t => mkRow uid cats uncatId t) := by
  intro txns
  induction txns with
  | nil => intro idx; rfl
  | cons t rest ih =>
    intro idx
    simp only [syncLoop, h]
    rw [ih (idx + 1)]
    simp

/-- Characterization of a successful sync: 200, the count of added
transactions, and exactly the categorized rows appended to the store. -/
theorem sync_success_spec (tsync : String → SyncDelta) (db : DB) (uid : String)
    (item : PlaidItem) (uncatId : Nat)
    (hfind : db.plaid_items.find? (fun r => some uid == some r.user_id) = some item)
    (huncat : categoryMapGet db.categories "Uncategorized" = some uncatId) :
    sync_transactions tsync db (some uid) none =
      { response := { status_code := 200, status := "success", error := none,
                      new_transactions := some (tsync item.access_token).added.length },
        db := { db with transactions := db.transactions ++
                  ((tsync item.access_token).added.map fun t =>
                    mkRow uid db.categories uncatId t) },
        remote_calls := 1 } := by
  simp only [sync_transactions, hfind, Option.getD_some]
  rw [syncLoop_success uid db.categories uncatId huncat (tsync item.access_token).added 0]
  simp

/-- A successful `categoryMapGet` lookup returns the id of some category row. -/
theorem categoryMapGet_mem (cats : List Category) (name : String) (i : Nat)
    (h : categoryMapGet cats name = some i) : ∃ c ∈ cats, c.id = i := by
  unfold categoryMapGet at h
  cases hf : cats.reverse.find? fun c => c.name == name with
  | none => rw [hf] at h; simp at h
  | some c =>
    rw [hf] at h
    have hm : c ∈ cats.reverse := List.mem_of_find?_eq_some hf
    exact ⟨c, List.mem_reverse.mp hm, by simpa using h⟩

/-! ## Claims about sync_transactions: error paths -/

/-- C4: a sync request for a user with no LinkedAccount row returns a 404
"no linked account" error, makes no remote API call, and writes nothing. -/
theorem claim_C4_sync_no_linked_account (tsync : String → SyncDelta) (db : DB)
    (user_id : Option String) (failAt : Option Nat)
    (h : db.plaid_items.find? (fun r => user_id == some r.user_id) = none) :
    (sync_transactions tsync db user_id failAt).response.status_code = 404 ∧
    (sync_transactions tsync db user_id failAt).response.status = "error" ∧
    (sync_transactions tsync db user_id failAt).response.error =
      some "No linked account found for this user." ∧
    (sync_transactions tsync db user_id failAt).remote_calls = 0 ∧
    (sync_transactions tsync db user_id failAt).db = db := by
  simp [sync_transactions, h]

/-- Witness for C4: a store whose only linked account belongs to another user. -/
theorem claim_C4_sync_no_linked_account_witness :
    (sync_transactions tsyncEx dbEx (some "ghost") none).response.status_code = 404 ∧
    (sync_transactions tsyncEx dbEx (some "ghost") none).response.status = "error" ∧
    (sync_transactions tsyncEx dbEx (some "ghost") none).response.error =
      some "No linked account found for this user." ∧
    (sync_transactions tsyncEx dbEx (some "ghost") none).remote_calls = 0 ∧
    (sync_transactions tsyncEx dbEx (some "ghost") none).db = dbEx :=
  claim_C4_sync_no_linked_account tsyncEx dbEx (some "ghost") none (by decide)

/-- C10: `sync_transactions` does not validate `user_id`; an absent (null)
`user_id` is not rejected with a 400 validation error — the null value flows
into the LinkedAccount lookup, finds no row, and the endpoint answers with the
404 "no linked account" error, unchanged store and no remote call. -/
theorem claim_C10_absent_user_id_hits_404 (tsync : String → SyncDelta) (db : DB)
    (failAt : Option Nat) :
    (sync_transactions tsync db none failAt).response.status_code = 404 ∧
    (sync_transactions tsync db none failAt).response.status_code ≠ 400 ∧
    (sync_transactions tsync db none failAt).response.error =
      some "No linked account found for this user." ∧
    (sync_transactions tsync db none failAt).remote_calls = 0 ∧
    (sync_transactions tsync db none failAt).db = db := by
  have h : db.plaid_items.find? (fun r => (none : Option String) == some r.user_id) = none := by
    rw [List.find?_eq_none]
    intro a _
    simp
  simp only [sync_transactions, h]
  simp

/-! ## Claims about sync_transactions: success path -/

/-- C2: for a linked user, a sync whose remote delta holds N added
transactions inserts exactly those N rows — date, description and amount
verbatim, category id resolved from the categorizer's output with the
"Uncategorized" id as default — reports `new_transactions = N` with success,
and ignores the `modified` and `removed` subsets entirely. -/
theorem claim_C2_sync_inserts_added (tsync : String → SyncDelta) (db : DB)
    (uid : String) (item : PlaidItem) (uncatId : Nat)
    (hfind : db.plaid_items.find? (fun r => some uid == some r.user_id) = some item)
    (huncat : categoryMapGet db.categories "Uncategorized" = some uncatId) :
    (sync_transactions tsync db (some uid) none).response.status_code = 200 ∧
    (sync_transactions tsync db (some uid) none).response.status = "success" ∧
    (sync_transactions tsync db (some uid) none).response.new_transactions =
      some (tsync item.access_token).added.length ∧
    (sync_transactions tsync db (some uid) none).db.plaid_items = db.plaid_items ∧
    (sync_transactions tsync db (some uid) none).db.categories = db.categories ∧
    (sync_transactions tsync db (some uid) none).db.transactions =
      db.transactions ++
        ((tsync item.access_token).added.map fun t => mkRow uid db.categories uncatId t) ∧
    (∀ tsync2 : String → SyncDelta,
      (tsync2 item.access_token).added = (tsync item.access_token).added →
      sync_transactions tsync2 db (some uid) none =
        sync_transactions tsync db (some uid) none) := by
  rw [sync_success_spec tsync db uid item uncatId hfind huncat]
  refine ⟨rfl, rfl, rfl, rfl, rfl, rfl, ?_⟩
  intro tsync2 hadd
  rw [sync_success_spec tsync2 db uid item uncatId hfind huncat, hadd]

/-- Witness for C2: one remote "Starbucks Coffee" transaction for user "u". -/
theorem claim_C2_sync_inserts_added_witness :
    (sync_transactions tsyncEx dbEx (some "u") none).response.status_code = 200 ∧
    (sync_transactions tsyncEx dbEx (some "u") none).response.status = "success" ∧
    (sync_transactions tsyncEx dbEx (some "u") none).response.new_transactions =
      some (tsyncEx itemEx.access_token).added.length ∧
    (sync_transactions tsyncEx dbEx (some "u") none).db.plaid_items = dbEx.plaid_items ∧
    (sync_transactions tsyncEx dbEx (some "u") none).db.categories = dbEx.categories ∧
    (sync_transactions tsyncEx dbEx (some "u") none).db.transactions =
      dbEx.transactions ++
        ((tsyncEx itemEx.access_token).added.map fun t => mkRow "u" dbEx.categories 0 t) ∧
    (∀ tsync2 : String → SyncDelta,
      (tsync2 itemEx.access_token).added = (tsyncEx itemEx.access_token).added →
      sync_transactions tsync2 dbEx (some "u") none =
        sync_transactions tsyncEx dbEx (some "u") none) :=
  claim_C2_sync_inserts_added tsyncEx dbEx "u" itemEx 0 (by decide) (by decide)

/-! ## Claims about sync_transactions: invariants and failure paths -/

/-- Every row a successful insert loop produces has a category id belonging to
some row of the category table. -/
theorem syncLoop_rows_fk (uid : String) (cats : List Category) :
    ∀ (txns : List RemoteTxn) (idx : Nat) (failAt : Option Nat)
      (rows : List TransactionRow),
      syncLoop uid cats txns idx failAt = some rows →
      ∀ row ∈ rows, ∃ c ∈ cats, c.id = row.category_id := by
  intro txns
  induction txns with
  | nil =>
    intro idx failAt rows h row hrow
    simp only [syncLoop, Option.some.injEq] at h
    subst h
    simp at hrow
  | cons t rest ih =>
    intro idx failAt rows h row hrow
    simp only [syncLoop] at h
    split at h
    · simp at h
    next uncatId hu =>
      split at h
      · simp at h
      cases hr : syncLoop uid cats rest (idx + 1) failAt with
      | none => rw [hr] at h; simp at h
      | some rows2 =>
        rw [hr] at h
        simp only [Option.map, Option.some.injEq] at h
        subst h
        rcases List.mem_cons.mp hrow with rfl | hmem
        · show ∃ c ∈ cats, c.id = (mkRow uid cats uncatId t).category_id
          unfold mkRow
          cases hcg : categoryMapGet cats (categorize_transaction t.name) with
          | none => simpa [hcg] using categoryMapGet_mem cats "Uncategorized" uncatId hu
          | some j => simpa [hcg] using categoryMapGet_mem cats _ j hcg
        · exact ih (idx + 1) failAt rows2 hr row hmem

/-- C6: the foreign-key invariant — every transaction row's category id
resolves to an existing category row — is preserved by every run of
`sync_transactions` (success or error), because inserted rows take either a
mapped category id or the "Uncategorized" id, both drawn from the table. -/
theorem claim_C6_category_fk_preserved (tsync : String → SyncDelta) (db : DB)
    (user_id : Option String) (failAt : Option Nat)
    (hinv : ∀ row ∈ db.transactions, ∃ c ∈ db.categories, c.id = row.category_id) :
    ∀ row ∈ (sync_transactions tsync db user_id failAt).db.transactions,
      ∃ c ∈ (sync_transactions tsync db user_id failAt).db.categories,
        c.id = row.category_id := by
  cases hfind : db.plaid_items.find? (fun r => user_id == some r.user_id) with
  | none => simp only [sync_transactions, hfind]; exact hinv
  | some item =>
    cases hloop : syncLoop (user_id.getD "") db.categories
        (tsync item.access_token).added 0 failAt with
    | none => simp only [sync_transactions, hfind, hloop]; exact hinv
    | some rows =>
      simp only [sync_transactions, hfind, hloop]
      intro row hrow
      rcases List.mem_append.mp hrow with hmem | hmem
      · exact hinv row hmem
      · exact syncLoop_rows_fk (user_id.getD "") db.categories
          (tsync item.access_token).added 0 failAt rows hloop row hmem

/-- Witness for C6 on the concrete store and delta, at the one inserted row. -/
theorem claim_C6_category_fk_preserved_witness :
    ∃ c ∈ (sync_transactions tsyncEx dbEx (some "u") none).db.categories,
      c.id = (mkRow "u" dbEx.categories 0 txnEx).category_id :=
  claim_C6_category_fk_preserved tsyncEx dbEx (some "u") none (by decide)
    (mkRow "u" dbEx.categories 0 txnEx) (by decide)

/-- C8: sync is not idempotent — with no cursor persisted and no uniqueness
constraint, running the same delta of N added transactions twice appends N
rows each time, leaving 2N new rows, and the second call still reports N. -/
theorem claim_C8_sync_not_idempotent (tsync : String → SyncDelta) (db : DB)
    (uid : String) (item : PlaidItem) (uncatId : Nat)
    (hfind : db.plaid_items.find? (fun r => some uid == some r.user_id) = some item)
    (huncat : categoryMapGet db.categories "Uncategorized" = some uncatId) :
    (sync_transactions tsync db (some uid) none).db.transactions.length =
      db.transactions.length + (tsync item.access_token).added.length ∧
    (sync_transactions tsync
        (sync_transactions tsync db (some uid) none).db
        (some uid) none).db.transactions.length =
      db.transactions.length + 2 * (tsync item.access_token).added.length ∧
    (sync_transactions tsync
        (sync_transactions tsync db (some uid) none).db
        (some uid) none).response.new_transactions =
      some (tsync item.access_token).added.length := by
  have e1 := sync_success_spec tsync db uid item uncatId hfind huncat
  have e2 := sync_success_spec tsync
      { db with transactions := db.transactions ++
          ((tsync item.access_token).added.map fun t => mkRow uid db.categories uncatId t) }
      uid item uncatId hfind huncat
  simp only [e1]
  simp only [e2]
  refine ⟨?_, ?_, trivial⟩
  · simp only [List.length_append, List.length_map]
  · simp only [List.length_append, List.length_map]
    omega

/-- Witness for C8 on the concrete store and delta. -/
theorem claim_C8_sync_not_idempotent_witness :
    (sync_transactions tsyncEx dbEx (some "u") none).db.transactions.length =
      dbEx.transactions.length + (tsyncEx itemEx.access_token).added.length ∧
    (sync_transactions tsyncEx
        (sync_transactions tsyncEx dbEx (some "u") none).db
        (some "u") none).db.transactions.length =
      dbEx.transactions.length + 2 * (tsyncEx itemEx.access_token).added.length ∧
    (sync_transactions tsyncEx
        (sync_transactions tsyncEx dbEx (some "u") none).db
        (some "u") none).response.new_transactions =
      some (tsyncEx itemEx.access_token).added.length :=
  claim_C8_sync_not_idempotent tsyncEx dbEx "u" itemEx 0 (by decide) (by decide)

/-- A failure injected at loop position `idx + k`, with `k` transactions still
ahead, makes the whole insert loop raise. -/
theorem syncLoop_fails (uid : String) (cats : List Category) :
    ∀ (txns : List RemoteTxn) (idx k : Nat), k < txns.length →
      syncLoop uid cats txns idx (some (idx + k)) = none := by
  intro txns
  induction txns with
  | nil =>
    intro idx k hk
    simp at hk
  | cons t rest ih =>
    intro idx k hk
    simp only [syncLoop]
    split
    · rfl
    next uncatId hu =>
      cases k with
      | zero => simp
      | succ k2 =>
        have hne : ¬(some (idx + (k2 + 1)) = some idx) := by
          intro hc
          simp only [Option.some.injEq] at hc
          omega
        rw [if_neg hne]
        have hidx : idx + (k2 + 1) = (idx + 1) + k2 := by omega
        rw [hidx, ih (idx + 1) k2 (by simpa using hk)]
        rfl

/-- C9: a single commit is issued only after the insert loop; if an exception
is raised at any INSERT of the loop, the handler answers 500 and the committed
store is unchanged — the sync batch is all-or-nothing. -/
theorem claim_C9_midloop_failure_all_or_nothing (tsync : String → SyncDelta)
    (db : DB) (user_id : Option String) (item : PlaidItem) (k : Nat)
    (hfind : db.plaid_items.find? (fun r => user_id == some r.user_id) = some item)
    (hk : k < (tsync item.access_token).added.length) :
    (sync_transactions tsync db user_id (some k)).response.status_code = 500 ∧
    (sync_transactions tsync db user_id (some k)).response.status = "error" ∧
    (sync_transactions tsync db user_id (some k)).db = db := by
  have hl : syncLoop (user_id.getD "") db.categories
      (tsync item.access_token).added 0 (some k) = none := by
    have := syncLoop_fails (user_id.getD "") db.categories
      (tsync item.access_token).added 0 k hk
    simpa using this
  simp only [sync_transactions, hfind, hl]
  simp

/-- Witness for C9: the first INSERT of a one-transaction delta fails. -/
theorem claim_C9_midloop_failure_all_or_nothing_witness :
    (sync_transactions tsyncEx dbEx (some "u") (some 0)).response.status_code = 500 ∧
    (sync_transactions tsyncEx dbEx (some "u") (some 0)).response.status = "error" ∧
    (sync_transactions tsyncEx dbEx (some "u") (some 0)).db = dbEx :=
  claim_C9_midloop_failure_all_or_nothing tsyncEx dbEx (some "u") itemEx 0
    (by decide) (by decide)

end FinanceTracker
